import Mathlib

/-!
Shallow embedding of the `reflex_cli` configuration model
(`reflex_cli/core/config.py`, `reflex_cli/utils/exceptions.py`) and of the
deploy orchestration flow (`reflex_cli/v2/cli.py`), together with theorems
settling the specification claims about them.

Python runtime values are embedded as the inductive `PyVal`, Python's
`typing` type expressions (as used by the Config schema) as `PyType`, and
the exception classes of `utils/exceptions.py` as `PyExc` with an explicit
class-ancestry table.  The deploy flow is embedded as a sequential,
trace-producing function over an oracle `World` supplying the results of
remote (`hosting.*`) calls and interactive prompts.
-/

set_option maxRecDepth 16384

namespace RxCli

/-- Decidable equality of `Except` results, component-wise. -/
instance instExceptDecEq {ε α : Type} [DecidableEq ε] [DecidableEq α] :
    DecidableEq (Except ε α) := fun a b =>
  match a, b with
  | .ok x, .ok y =>
      if h : x = y then .isTrue (by rw [h]) else
        .isFalse (fun he => h (Except.ok.inj he))
  | .error x, .error y =>
      if h : x = y then .isTrue (by rw [h]) else
        .isFalse (fun he => h (Except.error.inj he))
  | .ok _, .error _ => .isFalse (fun he => Except.noConfusion he)
  | .error _, .ok _ => .isFalse (fun he => Except.noConfusion he)

/-- Embedding of the Python runtime values that can appear in Config fields
and in parsed YAML/TOML documents: `None`, `bool`, `int`, `str`, `list`,
`dict`. -/
inductive PyVal where
  | none
  | bool (b : Bool)
  | int (n : Int)
  | str (s : String)
  | list (items : List PyVal)
  | dict (pairs : List (PyVal × PyVal))

mutual

/-- Boolean equality on embedded Python values. -/
def pyValBeq : PyVal → PyVal → Bool
  | .none, .none => true
  | .bool x, .bool y => x == y
  | .int x, .int y => x == y
  | .str x, .str y => x == y
  | .list xs, .list ys => pyListBeq xs ys
  | .dict xs, .dict ys => pyPairsBeq xs ys
  | _, _ => false

/-- Boolean equality on lists of embedded Python values. -/
def pyListBeq : List PyVal → List PyVal → Bool
  | [], [] => true
  | x :: xs, y :: ys => pyValBeq x y && pyListBeq xs ys
  | _, _ => false

/-- Boolean equality on key/value pair lists of embedded Python values. -/
def pyPairsBeq : List (PyVal × PyVal) → List (PyVal × PyVal) → Bool
  | [], [] => true
  | p :: ps, q :: qs => pyValBeq p.1 q.1 && pyValBeq p.2 q.2 && pyPairsBeq ps qs
  | _, _ => false

end

mutual

theorem pyValBeq_eq : ∀ {a b : PyVal}, pyValBeq a b = true → a = b
  | .none, .none, _ => rfl
  | .bool x, .bool y, h => by
      simp only [pyValBeq, beq_iff_eq] at h; exact h ▸ rfl
  | .int x, .int y, h => by
      simp only [pyValBeq, beq_iff_eq] at h; exact h ▸ rfl
  | .str x, .str y, h => by
      simp only [pyValBeq, beq_iff_eq] at h; exact h ▸ rfl
  | .list xs, .list ys, h => by
      simp only [pyValBeq] at h; exact pyListBeq_eq h ▸ rfl
  | .dict xs, .dict ys, h => by
      simp only [pyValBeq] at h; exact pyPairsBeq_eq h ▸ rfl

theorem pyListBeq_eq : ∀ {a b : List PyVal}, pyListBeq a b = true → a = b
  | [], [], _ => rfl
  | x :: xs, y :: ys, h => by
      simp only [pyListBeq, Bool.and_eq_true] at h
      rw [pyValBeq_eq h.1, pyListBeq_eq h.2]

theorem pyPairsBeq_eq :
    ∀ {a b : List (PyVal × PyVal)}, pyPairsBeq a b = true → a = b
  | [], [], _ => rfl
  | p :: ps, q :: qs, h => by
      simp only [pyPairsBeq, Bool.and_eq_true] at h
      have h1 := pyValBeq_eq h.1.1
      have h2 := pyValBeq_eq h.1.2
      have h3 := pyPairsBeq_eq h.2
      cases p; cases q
      simp_all

end

mutual

theorem pyValBeq_rfl : ∀ a : PyVal, pyValBeq a a = true
  | .none => rfl
  | .bool x => by simp [pyValBeq]
  | .int x => by simp [pyValBeq]
  | .str x => by simp [pyValBeq]
  | .list xs => by simp only [pyValBeq]; exact pyListBeq_rfl xs
  | .dict xs => by simp only [pyValBeq]; exact pyPairsBeq_rfl xs

theorem pyListBeq_rfl : ∀ a : List PyVal, pyListBeq a a = true
  | [] => rfl
  | x :: xs => by
      simp only [pyListBeq, Bool.and_eq_true]
      exact ⟨pyValBeq_rfl x, pyListBeq_rfl xs⟩

theorem pyPairsBeq_rfl : ∀ a : List (PyVal × PyVal), pyPairsBeq a a = true
  | [] => rfl
  | p :: ps => by
      simp only [pyPairsBeq, Bool.and_eq_true]
      exact ⟨⟨pyValBeq_rfl p.1, pyValBeq_rfl p.2⟩, pyPairsBeq_rfl ps⟩

end

instance : DecidableEq PyVal := fun a b =>
  if h : pyValBeq a b = true then .isTrue (pyValBeq_eq h)
  else .isFalse (fun he => h (he ▸ pyValBeq_rfl a))

/-- Python truthiness (`bool(v)`): `None`, `False`, `0`, `""`, `[]`, and
`{}` are falsy; everything else is truthy. -/
def pyTruthy : PyVal → Bool
  | .none => false
  | .bool b => b
  | .int n => n != 0
  | .str s => s != ""
  | .list items => !items.isEmpty
  | .dict pairs => !pairs.isEmpty

/-- Python `type(v).__name__`. -/
def pyTypeName : PyVal → String
  | .none => "NoneType"
  | .bool _ => "bool"
  | .int _ => "int"
  | .str _ => "str"
  | .list _ => "list"
  | .dict _ => "dict"

/-- Comma-separated rendering helper for `repr` of containers. -/
def commaSep : List String → String
  | [] => ""
  | [s] => s
  | s :: rest => s ++ ", " ++ commaSep rest

mutual

/-- Python `repr(v)` (as used for elements inside list/dict renderings). -/
def pyRepr : PyVal → String
  | .none => "None"
  | .bool b => if b then "True" else "False"
  | .int n => toString n
  | .str s => "\x27" ++ s ++ "\x27"
  | .list items => "[" ++ commaSep (pyReprList items) ++ "]"
  | .dict pairs => "\x7b" ++ commaSep (pyReprPairs pairs) ++ "\x7d"

/-- `repr` of each element of a list of Python values. -/
def pyReprList : List PyVal → List String
  | [] => []
  | v :: rest => pyRepr v :: pyReprList rest

/-- `"key: value"` renderings of the pairs of a Python dict. -/
def pyReprPairs : List (PyVal × PyVal) → List String
  | [] => []
  | p :: rest => (pyRepr p.1 ++ ": " ++ pyRepr p.2) :: pyReprPairs rest

end

/-- Python `str(v)` (as used by f-string interpolation `f"{v}"`): strings
render without quotes, containers render via `repr`. -/
def pyToStr : PyVal → String
  | .str s => s
  | v => pyRepr v

/-- Python `or`: `a or b` evaluates to `a` when `a` is truthy, else `b`. -/
def pyOr (a b : PyVal) : PyVal := if pyTruthy a then a else b

/-- The Python classes against which `_validate_type` performs `isinstance`
checks in `config.py` (`str`, `int`, `float`, `bool`, `list`, `dict`). -/
inductive PyClass where
  | strC | intC | floatC | boolC | listC | dictC
deriving DecidableEq, Repr

/-- Python `isinstance(v, c)`.  `bool` is a subclass of `int`, so a `bool`
value is an instance of `int`.  No `float` values occur in the modelled
documents, so nothing is an instance of `float`. -/
def pyIsInstance (v : PyVal) (c : PyClass) : Bool :=
  match c, v with
  | .strC, .str _ => true
  | .intC, .int _ => true
  | .intC, .bool _ => true
  | .boolC, .bool _ => true
  | .listC, .list _ => true
  | .dictC, .dict _ => true
  | _, _ => false

/-- Python `f"{cls}"` rendering of a class object, e.g. `<class 'str'>`. -/
def classRepr : PyClass → String
  | .strC => "<class \x27str\x27>"
  | .intC => "<class \x27int\x27>"
  | .floatC => "<class \x27float\x27>"
  | .boolC => "<class \x27bool\x27>"
  | .listC => "<class \x27list\x27>"
  | .dictC => "<class \x27dict\x27>"

/-- Python `f"{t}"` rendering of a tuple of strings, e.g. `('ams', 'arn')`
(as produced for `typing.get_args` of a `Literal`). -/
def tupleRepr (vals : List String) : String :=
  "(" ++ commaSep (vals.map (fun s => "\x27" ++ s ++ "\x27")) ++ ")"

/-- Embedding of the exception values raised by the modelled code, one
constructor per class from `reflex_cli/utils/exceptions.py` (plus the
builtin `TypeError`/`AttributeError` reachable from the loaders).  Each
carries its message. -/
inductive PyExc where
  | configError (msg : String)
  | configInvalidFieldValue (msg : String)
  | typeError (msg : String)
  | attributeError (msg : String)
deriving DecidableEq, Repr

/-- The message carried by an exception. -/
def PyExc.msg : PyExc → String
  | .configError m => m
  | .configInvalidFieldValue m => m
  | .typeError m => m
  | .attributeError m => m

/-- Ancestor class names of each exception class, per
`reflex_cli/utils/exceptions.py`: `ConfigError` and
`ConfigInvalidFieldValueError` both derive from `ReflexHostingCliError`,
which derives from `Exception` (neither derives from `ValueError`). -/
def PyExc.ancestry : PyExc → List String
  | .configError _ => ["ConfigError", "ReflexHostingCliError", "Exception"]
  | .configInvalidFieldValue _ =>
      ["ConfigInvalidFieldValueError", "ReflexHostingCliError", "Exception"]
  | .typeError _ => ["TypeError", "Exception"]
  | .attributeError _ => ["AttributeError", "Exception"]

/-- Python `isinstance(e, cls)` on exception values, via the ancestry
table. -/
def PyExc.isInstanceOf (e : PyExc) (cls : String) : Bool :=
  e.ancestry.contains cls

/-- Embedding of the `typing` type expressions appearing in the `Config`
schema: primitives, `T | None`, `list[T]`, `Literal[...]`, `dict[K, V]`. -/
inductive PyType where
  | strT | intT | floatT | boolT
  | optionalT (t : PyType)
  | listT (t : PyType)
  | litT (vals : List String)
  | dictT (k v : PyType)
deriving DecidableEq, Repr

/-- `_validate_type` of `config.py`: `isinstance` check, raising
`ConfigInvalidFieldValueError` with a message that names `key` when it is
nonempty. -/
def validate_type (value : PyVal) (c : PyClass) (key : String) : Except PyExc Unit :=
  if pyIsInstance value c then .ok () else
    .error (.configInvalidFieldValue
      (if key != "" then
        "Invalid value for " ++ key ++ ". Expected a " ++ classRepr c ++
          ", got " ++ pyToStr value ++ " of type " ++ pyTypeName value ++ "."
      else
        "Invalid value. Expected a " ++ classRepr c ++ ", got " ++ pyToStr value ++
          " of type " ++ pyTypeName value ++ "."))

/-- `_validate_literal` of `config.py`: a string check followed by
membership in the enumerated values. -/
def validate_literal (value : PyVal) (key : String) (valid_values : List String) :
    Except PyExc Unit := do
  validate_type value .strC key
  match value with
  | .str s =>
      if valid_values.contains s then .ok () else
        .error (.configInvalidFieldValue
          (if key != "" then
            "Invalid value for " ++ key ++ ". Expected one of " ++
              tupleRepr valid_values ++ ", got " ++ s ++ "."
          else
            "Invalid value. Expected one of " ++ tupleRepr valid_values ++
              ", got " ++ s ++ "."))
  | _ => .ok ()

/-- Sequences a validation over a list, stopping at the first error (the
behaviour of the Python `for` loops in `_validate_list`/`_validate_dict`,
whose raised exception aborts the loop). -/
def exceptForM (f : α → Except PyExc Unit) : List α → Except PyExc Unit
  | [] => .ok ()
  | x :: xs => do
      f x
      exceptForM f xs

/-- `_validate_dispatch` of `config.py` (with `_validate_optional`,
`_validate_list` and `_validate_dict` inlined at their unique call sites).
For `dict` fields the Python loop variable `key` shadows the field-name
parameter `key`, so the element error messages are built from the dict key
being iterated, not from the field name; the embedding reproduces this. -/
def validate_dispatch (value : PyVal) (t : PyType) (key : String) :
    Except PyExc Unit :=
  match t with
  | .strT => validate_type value .strC key
  | .intT => validate_type value .intC key
  | .floatT => validate_type value .floatC key
  | .boolT => validate_type value .boolC key
  | .optionalT t' =>
      if value = .none then .ok () else validate_dispatch value t' key
  | .listT t' => do
      validate_type value .listC key
      match value with
      | .list items =>
          exceptForM
            (fun item =>
              validate_dispatch item t' (if key != "" then key ++ " item" else ""))
            items
      | _ => .ok ()
  | .litT vals => validate_literal value key vals
  | .dictT kt vt => do
      validate_type value .dictC key
      match value with
      | .dict pairs =>
          exceptForM
            (fun p => do
              validate_dispatch p.1 kt
                (if pyTruthy p.1 then pyToStr p.1 ++ " key" else "")
              validate_dispatch p.2 vt
                (if pyTruthy p.1 then pyToStr p.1 ++ " value" else ""))
            pairs
      | _ => .ok ()
termination_by structural t

/-- Embedding of a `pathlib.Path` value: the path string.  `p.name` is the
final component. -/
structure PyPath where
  path : String
deriving DecidableEq, Repr

/-- `Path.name`: the final path component (text after the last slash). -/
def PyPath.name (p : PyPath) : String :=
  match (p.path.splitOn "/").getLast? with
  | some s => s
  | Option.none => p.path

/-- The `RegionOption` literal values of `config.py`. -/
def regionOptions : List String :=
  ["ams", "arn", "atl", "bog", "bom", "bos", "cdg", "den", "dfw", "ewr",
   "eze", "fra", "gdl", "gig", "gru", "hkg", "iad", "jnb", "lax", "lhr",
   "mad", "mia", "nrt", "ord", "otp", "phx", "qro", "scl", "sea", "sin",
   "sjc", "syd", "waw", "yul", "yyz"]

/-- The `VmType` literal values of `config.py`. -/
def vmTypes : List String :=
  ["c1m.5", "c1m1", "c1m2", "c2m1", "c2m4", "c4m4", "c4m8",
   "pc1m2", "pc2m4", "pc2m8", "pc4m8"]

/-- The `Config` dataclass of `config.py`.  Field values are embedded
Python runtime values (validation happens in `__post_init__`, not by the
host type system); `cloud_config_path` embeds the private
`_cloud_config_path` field. -/
structure Config where
  name : PyVal
  description : PyVal
  vmtype : PyVal
  regions : PyVal
  hostname : PyVal
  envfile : PyVal
  project : PyVal
  packages : PyVal
  appid : PyVal
  strategy : PyVal
  cloud_config_path : Option PyPath := Option.none
deriving DecidableEq

/-- The dataclass field defaults of `Config`. -/
def Config.defaultFields : Config :=
  { name := .none, description := .none, vmtype := .none, regions := .none,
    hostname := .none, envfile := .str ".env", project := .none,
    packages := .list [], appid := .none, strategy := .none }

/-- The declared type annotation of each non-underscore `Config` field, in
dataclass declaration order: `str | None`, `VmType | None`,
`dict[RegionOption, int] | None`, `str`, `list[str]`, etc. -/
def configFieldTypes : List (String × PyType) :=
  [("name", .optionalT .strT),
   ("description", .optionalT .strT),
   ("vmtype", .optionalT (.litT vmTypes)),
   ("regions", .optionalT (.dictT (.litT regionOptions) .intT)),
   ("hostname", .optionalT .strT),
   ("envfile", .strT),
   ("project", .optionalT .strT),
   ("packages", .listT .strT),
   ("appid", .optionalT .strT),
   ("strategy", .optionalT .strT)]

/-- All dataclass field names of `Config`, the private source-path field
included (as produced by `dataclasses.fields`). -/
def configFieldNames : List String :=
  (configFieldTypes.map Prod.fst) ++ ["_cloud_config_path"]

/-- The runtime value of a named non-underscore field. -/
def Config.fieldValue (c : Config) : String → PyVal
  | "name" => c.name
  | "description" => c.description
  | "vmtype" => c.vmtype
  | "regions" => c.regions
  | "hostname" => c.hostname
  | "envfile" => c.envfile
  | "project" => c.project
  | "packages" => c.packages
  | "appid" => c.appid
  | "strategy" => c.strategy
  | _ => .none

/-- One iteration of the `__post_init__` field loop: run
`_validate_dispatch` and, when it raises, apply the `except ValueError`
clause — re-raise with the file-name prefix only when the error is a
`ValueError` and `_cloud_config_path` is set, swallow it when it is a
`ValueError` and no path is set, and propagate it unchanged otherwise.
(`ConfigInvalidFieldValueError` does not derive from `ValueError`, so in
practice the error always propagates unchanged.) -/
def fieldPostInit (path : Option PyPath) (v : PyVal) (t : PyType) (key : String) :
    Except PyExc Unit :=
  match validate_dispatch v t key with
  | .ok _ => .ok ()
  | .error e =>
      if e.isInstanceOf "ValueError" then
        match path with
        | some p =>
            .error (.configInvalidFieldValue ("Invalid " ++ p.name ++ ". " ++ e.msg))
        | Option.none => .ok ()
      else .error e

/-- `Config.__post_init__`: validate every non-underscore field, in
dataclass order, against its declared type. -/
def Config.postInit (c : Config) : Except PyExc Unit :=
  exceptForM
    (fun ft => fieldPostInit c.cloud_config_path (c.fieldValue ft.1) ft.2 ft.1)
    configFieldTypes

/-- Constructing a `Config` dataclass instance: assign the fields, then run
`__post_init__`. -/
def Config.construct (c : Config) : Except PyExc Config := do
  c.postInit
  pure c

/-- The keyword arguments of a `with_overrides` / `dataclasses.replace`
call: each field is either overridden with a value or absent. -/
structure Overrides where
  name : Option PyVal := Option.none
  description : Option PyVal := Option.none
  vmtype : Option PyVal := Option.none
  regions : Option PyVal := Option.none
  hostname : Option PyVal := Option.none
  envfile : Option PyVal := Option.none
  project : Option PyVal := Option.none
  packages : Option PyVal := Option.none
  appid : Option PyVal := Option.none
  strategy : Option PyVal := Option.none
  cloud_config_path : Option (Option PyPath) := Option.none

/-- `Config.with_overrides` = `dataclasses.replace(self, **kwargs)`: build
a new instance whose named fields take the override values and whose other
fields keep the prior values, re-running `__post_init__`. -/
def Config.with_overrides (c : Config) (o : Overrides) : Except PyExc Config :=
  Config.construct
    { name := o.name.getD c.name,
      description := o.description.getD c.description,
      vmtype := o.vmtype.getD c.vmtype,
      regions := o.regions.getD c.regions,
      hostname := o.hostname.getD c.hostname,
      envfile := o.envfile.getD c.envfile,
      project := o.project.getD c.project,
      packages := o.packages.getD c.packages,
      appid := o.appid.getD c.appid,
      strategy := o.strategy.getD c.strategy,
      cloud_config_path := o.cloud_config_path.getD c.cloud_config_path }

/-- `Config.exists`: `bool(self._cloud_config_path) and
self._cloud_config_path.exists()`, over an abstract filesystem `fs` that
reports which paths exist. -/
def Config.existsb (fs : String → Bool) (c : Config) : Bool :=
  match c.cloud_config_path with
  | some p => fs p.path
  | Option.none => false

/-- Python `data.get(key, default)` for a string key, raising
`AttributeError` when `data` is not a dict (no `.get` attribute). -/
def pyGet (data : PyVal) (key : String) (dflt : PyVal) : Except PyExc PyVal :=
  match data with
  | .dict pairs =>
      match pairs.find? (fun p => p.1 = PyVal.str key) with
      | some p => .ok p.2
      | Option.none => .ok dflt
  | _ => .error (.attributeError "object has no attribute get")

/-- `Config._filter_dict`: keep only the entries whose key is a dataclass
field name and whose value is not `None`; iterating `.items()` on a
non-dict raises `AttributeError`. -/
def filter_dict (data : PyVal) : Except PyExc (List (String × PyVal)) :=
  match data with
  | .dict pairs =>
      .ok (pairs.filterMap (fun p =>
        match p.1 with
        | .str s =>
            if configFieldNames.contains s ∧ p.2 ≠ PyVal.none then some (s, p.2)
            else Option.none
        | _ => Option.none))
  | _ => .error (.attributeError "object has no attribute items")

/-- Assignment of one keyword argument to the corresponding dataclass
field (only called with filtered keys, which are field names). -/
def Config.setField (c : Config) (nm : String) (v : PyVal) : Config :=
  match nm with
  | "name" => { c with name := v }
  | "description" => { c with description := v }
  | "vmtype" => { c with vmtype := v }
  | "regions" => { c with regions := v }
  | "hostname" => { c with hostname := v }
  | "envfile" => { c with envfile := v }
  | "project" => { c with project := v }
  | "packages" => { c with packages := v }
  | "appid" => { c with appid := v }
  | "strategy" => { c with strategy := v }
  | _ => c

/-- `cls(_cloud_config_path=path, **data)`: defaults overridden by the
parsed keyword data, then `__post_init__`.  A `_cloud_config_path` key in
`data` would collide with the explicit keyword and raise `TypeError`. -/
def Config.from_fields_data (data : List (String × PyVal)) (path : Option PyPath) :
    Except PyExc Config :=
  if data.any (fun p => p.1 = "_cloud_config_path") then
    .error (.typeError "got multiple values for keyword argument")
  else
    Config.construct
      { (data.foldl (fun c p => c.setField p.1 p.2) Config.defaultFields) with
        cloud_config_path := path }

/-- The default YAML config location, `cloud.yml` in the current directory
(per the `from_yaml` docstring). -/
def cloudYamlPath : PyPath := ⟨"cloud.yml"⟩

/-- The default TOML manifest location, `pyproject.toml` in the current
directory. -/
def pyprojectPath : PyPath := ⟨"pyproject.toml"⟩

/-- `Config.from_yaml`: `doc` is the parsed YAML document when the file at
`yaml_path` exists, `Option.none` when it does not (in which case a
`ConfigError` is raised).  With an `env`, narrow to
`data.get("env", {}).get(env, {})`; filter; construct with the source path
recorded. -/
def Config.from_yaml (doc : Option PyVal) (yaml_path : PyPath) (env : Option String) :
    Except PyExc Config :=
  match doc with
  | Option.none =>
      .error (.configError ("Config file not found at " ++ yaml_path.path ++ "."))
  | some d => do
      let d ←
        match env with
        | some e => do
            let envTable ← pyGet d "env" (.dict [])
            pyGet envTable e (.dict [])
        | Option.none => pure d
      let data ← filter_dict d
      Config.from_fields_data data (some yaml_path)

/-- `Config.from_toml`: `doc` is the parsed TOML document when the file at
`pyproject_path` exists.  The document must be a dict, its `tool` entry
must be a dict, and `tool` must contain `reflex-cloud`; otherwise a
`ConfigError` distinct from file-not-found is raised. -/
def Config.from_toml (doc : Option PyVal) (pyproject_path : PyPath)
    (env : Option String) : Except PyExc Config :=
  match doc with
  | Option.none =>
      .error (.configError ("Config file not found at " ++ pyproject_path.path ++ "."))
  | some d =>
      match d with
      | .dict _ => do
          let tools ← pyGet d "tool" (.dict [])
          match tools with
          | .dict toolPairs =>
              if (toolPairs.find? (fun p => p.1 = PyVal.str "reflex-cloud")).isNone then
                .error (.configError
                  ("Invalid TOML file format at " ++ pyproject_path.path ++
                    ". Expected \x27tool.reflex-cloud\x27 to be present."))
              else do
                let data0 ← pyGet tools "reflex-cloud" (.dict [])
                let data0 ←
                  match env with
                  | some e => do
                      let envTable ← pyGet data0 "env" (.dict [])
                      pyGet envTable e (.dict [])
                  | Option.none => pure data0
                let data ← filter_dict data0
                Config.from_fields_data data (some pyproject_path)
          | _ =>
              .error (.configError
                ("Invalid TOML file format at " ++ pyproject_path.path ++
                  ". Expected \x27tool\x27 to be a dictionary."))
      | _ =>
          .error (.configError
            ("Invalid TOML file format at " ++ pyproject_path.path ++
              ". Expected a dictionary."))

/-- `Config.from_yaml_or_toml_or_none`: try the YAML loader at the default
location; on `ConfigError` try the TOML loader; on `ConfigError` again
return `None`.  Exceptions that are not `ConfigError` (in particular
`ConfigInvalidFieldValueError`) propagate. -/
def Config.from_yaml_or_toml_or_none (yamlDoc tomlDoc : Option PyVal)
    (env : Option String) : Except PyExc (Option Config) :=
  match Config.from_yaml yamlDoc cloudYamlPath env with
  | .ok c => .ok (some c)
  | .error e =>
      if e.isInstanceOf "ConfigError" then
        match Config.from_toml tomlDoc pyprojectPath env with
        | .ok c => .ok (some c)
        | .error e2 =>
            if e2.isInstanceOf "ConfigError" then .ok Option.none else .error e2
      else .error e

/-!  Embedding of the `deploy` flow of `reflex_cli/v2/cli.py`, lines
124–473.  Authentication (`get_authenticated_client`) is assumed to have
succeeded, and `hosting.read_config` (whose body is outside `src/`) is
abstracted by the `Option Config` input.  Remote `hosting.*` calls and
interactive prompts are answered by a `World` oracle; the flow emits a
sequential trace of `Action`s and terminates either normally, via
`SystemExit`/`click.exceptions.Exit` with a code, or by an uncaught
exception. -/

/-- How the deploy flow terminates abnormally: a `SystemExit` or
`click.exceptions.Exit` with an exit code, or an uncaught exception
propagating out. -/
inductive Outcome where
  | exit (code : Nat)
  | raised (msg : String)
deriving DecidableEq, Repr

/-- Observable events of the deploy flow: console output, interactive
prompts, remote calls, exports, temp-dir removal. -/
inductive Action where
  | error (msg : String)
  | info (msg : String)
  | warn (msg : String)
  | printMsg (msg : String)
  | ask (prompt : String)
  | searchProject (nm : String)
  | getProject (id : String)
  | getSelectedProject
  | searchApp (nm : String)
  | getApp (id : String)
  | createApp (nm : String)
  | getHostname
  | validateArgs
  | exportCall (frontend : Bool) (oldSignature : Bool)
  | rmTempDir
  | createDeployment
  | watchStatus
deriving DecidableEq, Repr

/-- A step of the flow: the actions it emits, and either its result or the
outcome that terminates the flow. -/
abbrev StepRes (α : Type) : Type := List Action × Except Outcome α

/-- Sequencing of steps: an abnormal outcome short-circuits. -/
def stepBind (x : StepRes α) (f : α → StepRes β) : StepRes β :=
  match x with
  | (tr, .error o) => (tr, .error o)
  | (tr, .ok a) => ((tr ++ (f a).1 : List Action), (f a).2)

/-- A project record returned by the hosting API (`id`, `name`). -/
structure ProjInfo where
  id : String
  name : String
deriving DecidableEq, Repr

/-- An app record returned by the hosting API: `id`, `name` and the value
of `app.get("project_id")`. -/
structure AppInfo where
  id : String
  name : String
  project_id : PyVal
deriving DecidableEq

/-- The hostname-allocation response: the optional `error` entry, and the
`server` (backend) and `hostname` (frontend) URLs. -/
structure Urls where
  error : Option String
  server : String
  hostname : String
deriving DecidableEq, Repr

/-- An exception raised by an `export_fn` call: an `ImportError` or any
other `Exception`. -/
inductive ExpErr where
  | importError (msg : String)
  | exc (msg : String)
deriving DecidableEq, Repr

/-- The message of an export exception (`f"{ex}"`). -/
def ExpErr.msg : ExpErr → String
  | .importError m => m
  | .exc m => m

/-- Failure modes of the guarded app-lookup calls (`search_app`/`get_app`):
a propagated `click.exceptions.Exit` (re-raised as is) or any other
exception (caught and reported). -/
inductive AppErr where
  | exitE (code : Nat)
  | excE (msg : String)
deriving DecidableEq, Repr

/-- Oracle answering the deploy flow's remote calls and prompts. -/
structure World where
  selectedProject : PyVal
  searchProject : String → Option ProjInfo
  getProject : String → Except String ProjInfo
  searchApp : String → PyVal → Except AppErr (Option AppInfo)
  getApp : String → Except AppErr (Option AppInfo)
  accessToken : String
  getDefaultProject : String → PyVal
  createApp : String → PyVal → PyVal → AppInfo
  getHostname : String → String → PyVal → Urls
  processEnvs : PyVal → List (String × String)
  dotenvAvailable : Bool
  dotenvValues : String → List (String × String)
  validateArgs : String
  rxLe076 : Bool
  exportBackend : Except ExpErr Unit
  exportFrontend : Except ExpErr Unit
  dirExistsB : Bool
  dirExistsF : Bool
  createDeploymentRes : String
  watchRes : Bool
  ask : String → String

/-- The CLI arguments of `deploy` that the modelled flow consults (absent
optional arguments are `PyVal.none`). -/
structure Args where
  app_name : PyVal
  description : PyVal
  regions : PyVal
  project : PyVal
  envs : PyVal
  vmtype : PyVal
  hostname : PyVal
  envfile : PyVal
  project_name : PyVal
  app_id : PyVal
  interactive : Bool
deriving DecidableEq

/-- The deploy flow's local variables after the config-merging block. -/
structure MState where
  app_name : PyVal
  description : PyVal
  regions : PyVal
  vmtype : PyVal
  hostname : PyVal
  envfile : PyVal
  project_id : PyVal
  project_name : PyVal
  app_id : PyVal
  packages : PyVal
  include_db : PyVal
  strategy : PyVal
  envs : PyVal
  interactive : Bool
  projectArg : PyVal
deriving DecidableEq

/-- `isinstance(v, (str, type(None)))`. -/
def pyIsStrOrNone : PyVal → Bool
  | .str _ => true
  | .none => true
  | _ => false

/-- Lines 130–179 of `cli.py`: seed the locals from the CLI arguments and,
when a config file was read, fill each falsy local from the corresponding
`dataclasses.asdict` entry — except `app_name`, which is assigned
`config.get("name", app_name)` and the `"name"` key is always present in
the asdict, so the file value always wins.  Performs the `app_id` and
`app_name` isinstance checks and the `app_name == "default"` guard, each
exiting with code 1 via `SystemExit`. -/
def mergeStep (cfg : Option Config) (a : Args) : StepRes MState :=
  let st0 : MState :=
    { app_name := a.app_name, description := a.description, regions := a.regions,
      vmtype := a.vmtype, hostname := a.hostname, envfile := a.envfile,
      project_id := a.project, project_name := a.project_name,
      app_id := a.app_id, packages := .none, include_db := .bool false,
      strategy := .none, envs := a.envs, interactive := a.interactive,
      projectArg := a.project }
  match cfg with
  | Option.none => ([], .ok st0)
  | some c =>
      let regions := if pyTruthy a.regions then a.regions else c.regions
      let vmtype := if pyTruthy a.vmtype then a.vmtype else c.vmtype
      let hostname := if pyTruthy a.hostname then a.hostname else c.hostname
      let envfile := if pyTruthy a.envfile then a.envfile else c.envfile
      let project_id := if pyTruthy a.project then a.project else c.project
      let project_name := if pyTruthy a.project_name then a.project_name else .none
      if ¬ pyTruthy a.app_id ∧ ¬ pyIsStrOrNone c.appid then
        ([Action.error "app_id must be a string or None. Please check your config file."],
         .error (.exit 1))
      else
        let app_id := if pyTruthy a.app_id then a.app_id else c.appid
        let packages := c.packages
        let include_db := PyVal.bool false
        let strategy := c.strategy
        let app_name := c.name
        if ¬ pyIsStrOrNone app_name then
          ([Action.error "app_name must be a string or None. Please check your config file."],
           .error (.exit 1))
        else if app_name = PyVal.str "default" then
          ([Action.error "Please set real config values in cloud.yml or pyproject.toml"],
           .error (.exit 1))
        else
          let description := if pyTruthy a.description then a.description else c.description
          ([], .ok { st0 with
            regions := regions, vmtype := vmtype, hostname := hostname,
            envfile := envfile, project_id := project_id,
            project_name := project_name, app_id := app_id,
            packages := packages, include_db := include_db,
            strategy := strategy, app_name := app_name,
            description := description })

/-- Lines 181–199 of `cli.py`: resolve the project id from the project
name when needed, then verify an explicit project id against the provider
(an HTTP error prints its detail and exits 1) or fall back to the globally
selected project. -/
def projectStep (w : World) (st : MState) : StepRes MState :=
  let (tr1, project_id) :=
    if pyTruthy st.project_name ∧ ¬ pyTruthy st.project_id then
      ([Action.searchProject (pyToStr st.project_name)],
        match w.searchProject (pyToStr st.project_name) with
        | some p => PyVal.str p.id
        | Option.none => PyVal.none)
    else ([], st.project_id)
  if pyTruthy project_id then
    match w.getProject (pyToStr project_id) with
    | .ok _ =>
        (tr1 ++ [Action.getProject (pyToStr project_id)],
         .ok { st with project_id := project_id })
    | .error d =>
        (tr1 ++ [Action.getProject (pyToStr project_id), Action.error d],
         .error (.exit 1))
  else
    (tr1 ++ [Action.getSelectedProject], .ok { st with project_id := w.selectedProject })

/-- Lines 201–228 of `cli.py`: `envs = envs or []`; require an app name or
id; look the app up by name (with the interactivity-dependent project
scoping) or by id.  A propagated `Exit` is re-raised; any other exception
prints `Deployment failed: ...` and exits 1. -/
def appStep (w : World) (st : MState) : StepRes (MState × Option AppInfo) :=
  let st := { st with envs := if pyTruthy st.envs then st.envs else PyVal.list [] }
  if ¬ pyTruthy st.app_name ∧ ¬ pyTruthy st.app_id then
    ([Action.error "Please provide a valid app name or ID for the deployed instance."],
     .error (.exit 1))
  else if pyTruthy st.app_name ∧ ¬ pyTruthy st.app_id then
    let (trSel, search_project_id) :=
      if ¬ st.interactive ∧ ¬ pyTruthy st.projectArg ∧ ¬ pyTruthy st.project_id then
        ([Action.getSelectedProject], w.selectedProject)
      else if st.interactive ∧ ¬ pyTruthy st.projectArg then ([], PyVal.none)
      else ([], st.project_id)
    match w.searchApp (pyToStr st.app_name) search_project_id with
    | .ok appOpt =>
        (trSel ++ [Action.searchApp (pyToStr st.app_name)], .ok (st, appOpt))
    | .error (.exitE n) =>
        (trSel ++ [Action.searchApp (pyToStr st.app_name)], .error (.exit n))
    | .error (.excE m) =>
        (trSel ++ [Action.searchApp (pyToStr st.app_name),
          Action.error ("Deployment failed: " ++ m)], .error (.exit 1))
  else
    match w.getApp (pyToStr (pyOr st.app_id (PyVal.str ""))) with
    | .ok appOpt =>
        ([Action.getApp (pyToStr (pyOr st.app_id (PyVal.str "")))], .ok (st, appOpt))
    | .error (.exitE n) =>
        ([Action.getApp (pyToStr (pyOr st.app_id (PyVal.str "")))], .error (.exit n))
    | .error (.excE m) =>
        ([Action.getApp (pyToStr (pyOr st.app_id (PyVal.str ""))),
          Action.error ("Deployment failed: " ++ m)], .error (.exit 1))

/-- The `try: ... except Exception: project_name = "Unknown"` blocks of
lines 266–305 of `cli.py`: resolve a project's display name, yielding
`"Unknown"` when the lookup raises. -/
def tryProjectName (w : World) (pid : PyVal) : List Action × String :=
  match w.getProject (pyToStr pid) with
  | .ok p => ([Action.getProject (pyToStr pid)], p.name)
  | .error _ => ([Action.getProject (pyToStr pid)], "Unknown")

/-- Lines 267–285 of `cli.py`: with no selected project, resolve a display
name for the create-target — from the pending project id, else from the
default project of the stored access token, else `"Default Project"`. -/
def newAppTargetName (w : World) (st : MState) : List Action × String :=
  if pyTruthy st.project_id then tryProjectName w st.project_id
  else if pyTruthy (w.getDefaultProject w.accessToken) then
    tryProjectName w (w.getDefaultProject w.accessToken)
  else ([], "Default Project")

/-- The prompt text of the nested create-target confirmations. -/
def createPrompt (st : MState) (pname : String) : String :=
  "Create and deploy app \x27" ++ pyToStr st.app_name ++
    "\x27 in project \x27" ++ pname ++ "\x27?"

/-- Lines 263–316 of `cli.py` (the `if not project:` block inside the
create-new-app branch): when no selected project exists, or when the
pending project id differs from the selected one, resolve a display name
(any exception in the `try` yields `"Unknown"`) and ask for confirmation;
declining prints `Deployment cancelled.` and exits with code 0. -/
def confirmNewApp (w : World) (st : MState) : StepRes Unit :=
  if pyTruthy st.projectArg then ([], .ok ())
  else
    if ¬ pyTruthy w.selectedProject then
      if w.ask (createPrompt st (newAppTargetName w st).2) ≠ "y" then
        ([Action.getSelectedProject] ++ (newAppTargetName w st).1 ++
          [Action.ask (createPrompt st (newAppTargetName w st).2),
           Action.info "Deployment cancelled."], .error (.exit 0))
      else
        ([Action.getSelectedProject] ++ (newAppTargetName w st).1 ++
          [Action.ask (createPrompt st (newAppTargetName w st).2)], .ok ())
    else
      if pyTruthy st.project_id ∧ st.project_id ≠ w.selectedProject then
        if w.ask (createPrompt st (tryProjectName w st.project_id).2) ≠ "y" then
          ([Action.getSelectedProject] ++ (tryProjectName w st.project_id).1 ++
            [Action.ask (createPrompt st (tryProjectName w st.project_id).2),
             Action.info "Deployment cancelled."], .error (.exit 0))
        else
          ([Action.getSelectedProject] ++ (tryProjectName w st.project_id).1 ++
            [Action.ask (createPrompt st (tryProjectName w st.project_id).2)], .ok ())
      else ([Action.getSelectedProject], .ok ())

/-- Lines 254–339 of `cli.py` for a missing app: interactively offer to
create it (declining the offer errors and exits 1; the nested project
confirmations may cancel with exit 0; a `None` description is prompted
for), or create it without confirmation when non-interactive. -/
def createFlow (w : World) (st : MState) : StepRes (MState × AppInfo) :=
  if st.interactive then
    let prompt1 := "No app with " ++ pyToStr (pyOr st.app_name st.app_id) ++
      " found. Do you want to create a new app to deploy?"
    if w.ask prompt1 = "y" then
      match confirmNewApp w st with
      | (tr, .error o) => ([Action.ask prompt1] ++ tr, .error o)
      | (tr, .ok _) =>
          let (trD, description) :=
            if st.description = PyVal.none then
              ([Action.ask "App Description (Enter to skip)"],
               PyVal.str (w.ask "App Description (Enter to skip)"))
            else ([], st.description)
          let ap := w.createApp (pyToStr (pyOr st.app_name (PyVal.str "")))
            description st.project_id
          ([Action.ask prompt1] ++ tr ++ trD ++
            [Action.createApp (pyToStr (pyOr st.app_name (PyVal.str ""))),
             Action.info ("created app. \nName: " ++ ap.name ++ " \nId: " ++ ap.id)],
           .ok ({ st with description := description }, ap))
    else
      ([Action.ask prompt1, Action.error "Please create an app to deploy."],
       .error (.exit 1))
  else
    let desc := if pyTruthy st.description then st.description else PyVal.str ""
    let ap := w.createApp (pyToStr (pyOr st.app_name (PyVal.str ""))) desc st.project_id
    ([Action.createApp (pyToStr (pyOr st.app_name (PyVal.str ""))),
      Action.info ("created app. \nName: " ++ ap.name ++ " \nId: " ++ ap.id)],
     .ok (st, ap))

/-- Lines 230–339 of `cli.py`: when an app was found interactively with no
explicit project or app id and it belongs to a project other than the
selected one, confirm before proceeding (declining prints `Deployment
cancelled.` and exits with code 0; accepting retargets `project_id`); when
no app was found, enter the creation flow. -/
def confirmStep (w : World) (st : MState) (app : Option AppInfo) :
    StepRes (MState × AppInfo) :=
  match app with
  | some ap =>
      if st.interactive ∧ ¬ pyTruthy st.projectArg ∧ ¬ pyTruthy st.app_id then
        let dpi := w.selectedProject
        if pyTruthy ap.project_id ∧ (¬ pyTruthy dpi ∨ ap.project_id ≠ dpi) then
          match w.getProject (pyToStr ap.project_id) with
          | .error m =>
              ([Action.getSelectedProject, Action.getProject (pyToStr ap.project_id)],
               .error (.raised m))
          | .ok proj =>
              let prompt := "Deploy to app \x27" ++ ap.name ++ "\x27 in project \x27" ++
                proj.name ++ "\x27?"
              if w.ask prompt ≠ "y" then
                ([Action.getSelectedProject, Action.getProject (pyToStr ap.project_id),
                  Action.ask prompt, Action.info "Deployment cancelled."],
                 .error (.exit 0))
              else
                ([Action.getSelectedProject, Action.getProject (pyToStr ap.project_id),
                  Action.ask prompt],
                 .ok ({ st with project_id := ap.project_id }, ap))
        else ([Action.getSelectedProject], .ok (st, ap))
      else ([], .ok (st, ap))
  | Option.none => createFlow w st

/-- Lines 341–373 of `cli.py`: request hostnames (an `error` entry aborts
with exit 1), derive `processed_envs` from the explicit `envs` list,
require an app name, default `project_id` from the app record, and run the
provider-side argument validation. -/
def hostnameStep (w : World) (st : MState) (ap : AppInfo) :
    StepRes (MState × String × String × Option (List (String × String))) :=
  let urls := w.getHostname ap.id ap.name st.hostname
  match urls.error with
  | some e => ([Action.getHostname, Action.error e], .error (.exit 1))
  | Option.none =>
      let processed := if pyTruthy st.envs then some (w.processEnvs st.envs) else Option.none
      if ¬ pyTruthy st.app_name then
        ([Action.getHostname, Action.error "Please set an app name."], .error (.exit 1))
      else
        let st := { st with project_id := pyOr st.project_id ap.project_id }
        if w.validateArgs ≠ "success" then
          ([Action.getHostname, Action.validateArgs, Action.error w.validateArgs],
           .error (.exit 1))
        else
          ([Action.getHostname, Action.validateArgs],
           .ok (st, urls.server, urls.hostname, processed))

/-- Lines 375–383 of `cli.py`: when an env file is configured, its parsed
values replace `processed_envs` (a missing `python-dotenv` prints an error
and the flow continues with the prior value). -/
def envStep (w : World) (st : MState)
    (processed : Option (List (String × String))) :
    StepRes (Option (List (String × String))) :=
  if pyTruthy st.envfile then
    if w.dotenvAvailable then
      ([], .ok (some (w.dotenvValues (pyToStr st.envfile))))
    else
      ([Action.error "The `python-dotenv` package is required to load environment variables from a file. Run `pip install \"python-dotenv>=1.0.1\"`."],
       .ok processed)
  else ([], .ok processed)

/-- Lines 385–447 of `cli.py`: create the temporary export directory and
run the two `export_fn` calls (argument shape gated on the installed
framework version).  An exception in either call prints an error, removes
the temporary directory if it still exists, and exits 1.  The second
component of the result records whether the temporary directory still
exists when the step finishes. -/
def exportStepFull (w : World) : List Action × (Except Outcome Unit × Bool) :=
  let old := w.rxLe076
  match w.exportBackend with
  | .error e =>
      ([Action.exportCall false old,
        Action.error ("Unable to export due to: " ++ e.msg)] ++
        (if w.dirExistsB then [Action.rmTempDir] else []),
       (.error (.exit 1), if w.dirExistsB then false else w.dirExistsB))
  | .ok _ =>
      match w.exportFrontend with
      | .error (.importError m) =>
          ([Action.exportCall false old, Action.exportCall true old,
            Action.error ("Encountered ImportError, did you install all the dependencies? " ++ m)] ++
            (if w.dirExistsF then [Action.rmTempDir] else []),
           (.error (.exit 1), if w.dirExistsF then false else w.dirExistsF))
      | .error (.exc m) =>
          ([Action.exportCall false old, Action.exportCall true old,
            Action.error ("Unable to export due to: " ++ m)] ++
            (if w.dirExistsF then [Action.rmTempDir] else []),
           (.error (.exit 1), if w.dirExistsF then false else w.dirExistsF))
      | .ok _ =>
          ([Action.exportCall false old, Action.exportCall true old], (.ok (), true))

/-- Substring containment (`sub in s` on Python strings), over character
lists. -/
def charsHaveSub (s sub : List Char) : Bool :=
  if sub.isPrefixOf s then true
  else
    match s with
    | [] => sub.isEmpty
    | _ :: rest => charsHaveSub rest sub

/-- Python `sub in s` for strings. -/
def strContainsSub (s sub : String) : Bool :=
  charsHaveSub s.toList sub.toList

/-- Modelled from the spec: `constants.Hosting.HOSTING_SERVICE_UI` (the
dashboard base URL) lives in `reflex_cli/constants`, which is outside
`src/`; the spec only says a dashboard URL is printed. -/
def HOSTING_SERVICE_UI : String := "https://cloud.reflex.dev"

/-- Lines 449–473 of `cli.py`: upload the artifacts; a `"failed"` marker in
the response prints it and exits 1; otherwise print the dashboard URL and
the follow-along hint, then poll the deployment status, exiting 1 when the
terminal status is `False`. -/
def submitStep (w : World) (ap : AppInfo) : StepRes Unit :=
  let result := w.createDeploymentRes
  if strContainsSub result "failed" then
    ([Action.createDeployment, Action.error result], .error (.exit 1))
  else
    let tr := [Action.createDeployment,
      Action.printMsg ("deployment progress can now be viewed on the website: " ++
        HOSTING_SERVICE_UI ++ "/project/" ++ pyToStr ap.project_id ++ "/app/" ++
        ap.id ++ "/"),
      Action.printMsg ("you are now safe to exit this command.\nfollow along with the deployment with the following command: \n  reflex cloud apps status " ++
        result ++ " --watch"),
      Action.watchStatus]
    if w.watchRes = false then (tr, .error (.exit 1)) else (tr, .ok ())

/-- The deploy flow, lines 124–473 of `cli.py`: the sequential composition
of the modelled steps. -/
def deployRun (cfg : Option Config) (a : Args) (w : World) : StepRes Unit :=
  stepBind (mergeStep cfg a) fun st =>
  stepBind (projectStep w st) fun st =>
  stepBind (appStep w st) fun p =>
  stepBind (confirmStep w p.1 p.2) fun q =>
  stepBind (hostnameStep w q.1 q.2) fun r =>
  stepBind (envStep w r.1 r.2.2.2) fun _procEnvs =>
  stepBind ((exportStepFull w).1, (exportStepFull w).2.1) fun _ =>
  submitStep w q.2

/-- `Config.from_yaml_or_toml_or_default`:
`cls.from_yaml_or_toml_or_none() or cls()` (a returned `Config` instance is
always truthy). -/
def Config.from_yaml_or_toml_or_default (yamlDoc tomlDoc : Option PyVal) :
    Except PyExc Config :=
  match Config.from_yaml_or_toml_or_none yamlDoc tomlDoc Option.none with
  | .ok (some c) => .ok c
  | .ok Option.none => Config.construct Config.defaultFields
  | .error e => .error e

/-- Python `s.startswith(t)`, over character lists. -/
def strStartsW (s t : String) : Bool :=
  t.toList.isPrefixOf s.toList

/-- Is this action a `console.warn` call? -/
def Action.isWarn : Action → Bool
  | .warn _ => true
  | _ => false

/-- Is this action a `console.error` call? -/
def Action.isConsoleError : Action → Bool
  | .error _ => true
  | _ => false

theorem cifv_not_configError (m : String) :
    (PyExc.configInvalidFieldValue m).isInstanceOf "ConfigError" = false := rfl

theorem configError_is_configError (m : String) :
    (PyExc.configError m).isInstanceOf "ConfigError" = true := rfl

/-- A successful dataclass construction returns exactly the assembled
record (`__post_init__` only validates). -/
theorem construct_eq_ok {r c' : Config} (h : Config.construct r = .ok c') : c' = r := by
  unfold Config.construct at h
  cases hp : r.postInit with
  | ok u =>
      rw [hp] at h
      cases u
      have h' : Except.ok (ε := PyExc) r = .ok c' := h
      exact (Except.ok.inj h').symm
  | error e =>
      rw [hp] at h
      have h' : Except.error (α := Config) e = .ok c' := h
      exact Except.noConfusion h'

/-- Claim C1 (code bug evidence): constructing a `Config` whose `regions`
mapping has the out-of-enum key `"xyz"` does raise
`ConfigInvalidFieldValueError`, but the message does not name the field
`regions` at all — the loop variable `key` in `_validate_dict` shadows the
field-name parameter, so the message is built from the offending dict key
(`"xyz key"`) instead of the field name. -/
theorem c1_regions_key_error_omits_field_name :
    Config.construct { Config.defaultFields with regions := .dict [(.str "xyz", .int 1)] }
      = .error (.configInvalidFieldValue
        "Invalid value for xyz key. Expected one of (\x27ams\x27, \x27arn\x27, \x27atl\x27, \x27bog\x27, \x27bom\x27, \x27bos\x27, \x27cdg\x27, \x27den\x27, \x27dfw\x27, \x27ewr\x27, \x27eze\x27, \x27fra\x27, \x27gdl\x27, \x27gig\x27, \x27gru\x27, \x27hkg\x27, \x27iad\x27, \x27jnb\x27, \x27lax\x27, \x27lhr\x27, \x27mad\x27, \x27mia\x27, \x27nrt\x27, \x27ord\x27, \x27otp\x27, \x27phx\x27, \x27qro\x27, \x27scl\x27, \x27sea\x27, \x27sin\x27, \x27sjc\x27, \x27syd\x27, \x27waw\x27, \x27yul\x27, \x27yyz\x27), got xyz.")
    ∧ strContainsSub
        "Invalid value for xyz key. Expected one of (\x27ams\x27, \x27arn\x27, \x27atl\x27, \x27bog\x27, \x27bom\x27, \x27bos\x27, \x27cdg\x27, \x27den\x27, \x27dfw\x27, \x27ewr\x27, \x27eze\x27, \x27fra\x27, \x27gdl\x27, \x27gig\x27, \x27gru\x27, \x27hkg\x27, \x27iad\x27, \x27jnb\x27, \x27lax\x27, \x27lhr\x27, \x27mad\x27, \x27mia\x27, \x27nrt\x27, \x27ord\x27, \x27otp\x27, \x27phx\x27, \x27qro\x27, \x27scl\x27, \x27sea\x27, \x27sin\x27, \x27sjc\x27, \x27syd\x27, \x27waw\x27, \x27yul\x27, \x27yyz\x27), got xyz."
        "regions" = false :=
  ⟨rfl, by decide⟩

/-- Claim C2 (code bug evidence): a `Config` loaded from the named file
`cloud.yml` with the invalid field value `vmtype: bogus` raises
`ConfigInvalidFieldValueError`, but the message is not prefixed with the
file name: the `except ValueError` clause of `__post_init__` that would add
the `Invalid cloud.yml. ` prefix never fires, because
`ConfigInvalidFieldValueError` derives from `ReflexHostingCliError`, not
`ValueError`. -/
theorem c2_error_message_not_prefixed_with_file_name :
    Config.from_yaml (some (.dict [(.str "vmtype", .str "bogus")])) cloudYamlPath
        Option.none
      = .error (.configInvalidFieldValue
        "Invalid value for vmtype. Expected one of (\x27c1m.5\x27, \x27c1m1\x27, \x27c1m2\x27, \x27c2m1\x27, \x27c2m4\x27, \x27c4m4\x27, \x27c4m8\x27, \x27pc1m2\x27, \x27pc2m4\x27, \x27pc2m8\x27, \x27pc4m8\x27), got bogus.")
    ∧ strStartsW
        "Invalid value for vmtype. Expected one of (\x27c1m.5\x27, \x27c1m1\x27, \x27c1m2\x27, \x27c2m1\x27, \x27c2m4\x27, \x27c4m4\x27, \x27c4m8\x27, \x27pc1m2\x27, \x27pc2m4\x27, \x27pc2m8\x27, \x27pc4m8\x27), got bogus."
        "Invalid cloud.yml." = false :=
  ⟨rfl, by decide⟩

/-- Claim C7: the combined loader tries the YAML loader first and the TOML
loader second, the first success wins; `ConfigError` load failures are
swallowed at this level while `ConfigInvalidFieldValueError` validation
failures propagate (from either loader); and with neither file present the
default-returning wrapper yields the pure-default instance, whose
`exists()` is `False` for every filesystem. -/
theorem c7_combined_loader (y t : Option PyVal) (env : Option String) :
    (∀ c, Config.from_yaml y cloudYamlPath env = .ok c →
        Config.from_yaml_or_toml_or_none y t env = .ok (some c)) ∧
    (∀ e c, Config.from_yaml y cloudYamlPath env = .error e →
        e.isInstanceOf "ConfigError" = true →
        Config.from_toml t pyprojectPath env = .ok c →
        Config.from_yaml_or_toml_or_none y t env = .ok (some c)) ∧
    (∀ m, Config.from_yaml y cloudYamlPath env = .error (.configInvalidFieldValue m) →
        Config.from_yaml_or_toml_or_none y t env
          = .error (.configInvalidFieldValue m)) ∧
    (∀ e m, Config.from_yaml y cloudYamlPath env = .error e →
        e.isInstanceOf "ConfigError" = true →
        Config.from_toml t pyprojectPath env = .error (.configInvalidFieldValue m) →
        Config.from_yaml_or_toml_or_none y t env
          = .error (.configInvalidFieldValue m)) ∧
    (∀ e1 e2, Config.from_yaml y cloudYamlPath env = .error e1 →
        e1.isInstanceOf "ConfigError" = true →
        Config.from_toml t pyprojectPath env = .error e2 →
        e2.isInstanceOf "ConfigError" = true →
        Config.from_yaml_or_toml_or_none y t env = .ok Option.none) ∧
    (y = Option.none → t = Option.none →
        Config.from_yaml_or_toml_or_default y t = .ok Config.defaultFields ∧
        ∀ fs, Config.existsb fs Config.defaultFields = false) := by
  refine ⟨?_, ?_, ?_, ?_, ?_, ?_⟩
  · intro c h
    unfold Config.from_yaml_or_toml_or_none
    rw [h]
  · intro e c h1 h2 h3
    unfold Config.from_yaml_or_toml_or_none
    rw [h1, h3]
    simp [h2]
  · intro m h
    unfold Config.from_yaml_or_toml_or_none
    rw [h]
    simp [cifv_not_configError]
  · intro e m h1 h2 h3
    unfold Config.from_yaml_or_toml_or_none
    rw [h1, h3]
    simp [h2, cifv_not_configError]
  · intro e1 e2 h1 h2 h3 h4
    unfold Config.from_yaml_or_toml_or_none
    rw [h1, h3]
    simp [h2, h4]
  · intro hy ht
    subst hy; subst ht
    exact ⟨by decide, fun fs => rfl⟩

/-- Claim C7 witness: with neither a YAML nor a TOML document present, the
combined loader returns the pure-default instance and its `exists()` is
`False`. -/
theorem c7_combined_loader_witness :
    Config.from_yaml_or_toml_or_default Option.none Option.none
        = .ok Config.defaultFields ∧
      Config.existsb (fun _ => true) Config.defaultFields = false := by
  have h := (c7_combined_loader Option.none Option.none Option.none).2.2.2.2.2 rfl rfl
  exact ⟨h.1, h.2 (fun _ => true)⟩

/-- Claim C8: on a `Config` whose fields satisfy the declared schema (its
`__post_init__` validation succeeds), `with_overrides()` with no overrides
succeeds and returns an instance equal to the original, every field
unchanged. -/
theorem c8_with_overrides_no_overrides_id (c : Config)
    (h : Config.postInit c = .ok ()) :
    Config.with_overrides c {} = .ok c := by
  show Config.construct c = .ok c
  unfold Config.construct
  rw [h]
  rfl

/-- Claim C8 witness: the default-constructed `Config` round-trips through
`with_overrides()` with no overrides. -/
theorem c8_with_overrides_no_overrides_id_witness :
    Config.with_overrides Config.defaultFields {} = .ok Config.defaultFields :=
  c8_with_overrides_no_overrides_id Config.defaultFields rfl

/-- Claim C9: `with_overrides` with overrides that do not name the private
source-path field preserves `_cloud_config_path`, so the result's
`exists()` equals the original's on every filesystem. -/
theorem c9_with_overrides_preserves_source_path (c : Config) (o : Overrides)
    (ho : o.cloud_config_path = Option.none) (c' : Config)
    (h : Config.with_overrides c o = .ok c') :
    c'.cloud_config_path = c.cloud_config_path ∧
      ∀ fs, Config.existsb fs c' = Config.existsb fs c := by
  unfold Config.with_overrides at h
  rw [ho] at h
  have he := construct_eq_ok h
  have hpath : c'.cloud_config_path = c.cloud_config_path := by
    rw [he]
    rfl
  refine ⟨hpath, fun fs => ?_⟩
  unfold Config.existsb
  rw [hpath]

/-- A file-backed valid `Config` used to instantiate the override
frame-property concretely. -/
def cfg9 : Config :=
  { Config.defaultFields with cloud_config_path := some cloudYamlPath }

/-- The overrides `vmtype="c2m4"` (not naming the source-path field). -/
def ovr9 : Overrides := { vmtype := some (.str "c2m4") }

/-- Claim C9 witness: overriding `vmtype` on a file-backed `Config` keeps
its source path. -/
theorem c9_with_overrides_preserves_source_path_witness :
    ({ cfg9 with vmtype := PyVal.str "c2m4" } : Config).cloud_config_path
      = cfg9.cloud_config_path :=
  (c9_with_overrides_preserves_source_path cfg9 ovr9 rfl
    { cfg9 with vmtype := PyVal.str "c2m4" } rfl).1

/-- Abnormal step outcomes short-circuit the composition. -/
theorem stepBind_error (tr : List Action) (o : Outcome) (f : α → StepRes β) :
    stepBind (tr, .error o) f = (tr, .error o) := rfl

/-- A set of CLI arguments: `--app-name myapp`, interactive, everything
else absent. -/
def baseArgs : Args :=
  { app_name := .str "myapp", description := .none, regions := .none,
    project := .none, envs := .none, vmtype := .none, hostname := .none,
    envfile := .none, project_name := .none, app_id := .none, interactive := true }

/-- A cooperative oracle: the selected project is `p1`, the app `myapp`
exists in `p1`, every call succeeds, every prompt is answered `y`. -/
def baseWorld : World :=
  { selectedProject := .str "p1",
    searchProject := fun _ => Option.none,
    getProject := fun pid => .ok ⟨pid, "Team"⟩,
    searchApp := fun _ _ => .ok (some ⟨"a1", "myapp", .str "p1"⟩),
    getApp := fun _ => .ok Option.none,
    accessToken := "tok",
    getDefaultProject := fun _ => PyVal.none,
    createApp := fun nm _ pid => ⟨"a9", nm, pid⟩,
    getHostname := fun _ _ _ =>
      ⟨Option.none, "https://be.example.com", "https://fe.example.com"⟩,
    processEnvs := fun _ => [("A", "1")],
    dotenvAvailable := true,
    dotenvValues := fun _ => [("B", "2")],
    validateArgs := "success",
    rxLe076 := false,
    exportBackend := .ok (),
    exportFrontend := .ok (),
    dirExistsB := true,
    dirExistsF := true,
    createDeploymentRes := "dep-1",
    watchRes := true,
    ask := fun _ => "y" }

/-- A config file carrying `name: fileapp`. -/
def c3File : Config := { Config.defaultFields with name := .str "fileapp" }

/-- CLI arguments carrying `--app-name cliapp`. -/
def c3Args : Args := { baseArgs with app_name := .str "cliapp" }

/-- The state `mergeStep` produces from `c3File` and `c3Args`: the app name
comes from the file, not the CLI. -/
def c3Merged : MState :=
  { app_name := .str "fileapp", description := .none, regions := .none,
    vmtype := .none, hostname := .none, envfile := .str ".env",
    project_id := .none, project_name := .none, app_id := .none,
    packages := .list [], include_db := .bool false, strategy := .none,
    envs := .none, interactive := true, projectArg := .none }

/-- Claim C3 counterexample: with a config file whose `name` is `fileapp`
and the CLI argument `--app-name cliapp`, the merged deployment settings
carry the file's app name, not the CLI's — `app_name =
config.get("name", app_name)` always finds the `"name"` key in the asdict,
so for the app name the file value wins over a present, non-default CLI
value. -/
theorem c3_file_name_overrides_cli_app_name :
    mergeStep (some c3File) c3Args = ([], .ok c3Merged) ∧
      c3Merged.app_name = .str "fileapp" ∧ c3Args.app_name = .str "cliapp" :=
  ⟨rfl, rfl, rfl⟩

/-- Claim C3 (amended): when a config file is present and merging succeeds,
each of regions, vmtype, hostname, envfile, project, app id and description
takes the CLI value when it is present (truthy) and the file value
otherwise — but the app name is always taken from the file's `name` field,
regardless of the CLI value. -/
theorem c3_amended_cli_precedence_except_app_name (c : Config) (a : Args)
    (tr : List Action) (st : MState)
    (h : mergeStep (some c) a = (tr, .ok st)) :
    st.regions = (if pyTruthy a.regions then a.regions else c.regions) ∧
    st.vmtype = (if pyTruthy a.vmtype then a.vmtype else c.vmtype) ∧
    st.hostname = (if pyTruthy a.hostname then a.hostname else c.hostname) ∧
    st.envfile = (if pyTruthy a.envfile then a.envfile else c.envfile) ∧
    st.project_id = (if pyTruthy a.project then a.project else c.project) ∧
    st.app_id = (if pyTruthy a.app_id then a.app_id else c.appid) ∧
    st.description = (if pyTruthy a.description then a.description else c.description) ∧
    st.app_name = c.name := by
  simp only [mergeStep] at h
  split at h
  · simp at h
  · split at h
    · simp at h
    · split at h
      · simp at h
      · simp only [Prod.mk.injEq, Except.ok.injEq] at h
        rw [← h.2]
        exact ⟨rfl, rfl, rfl, rfl, rfl, rfl, rfl, rfl⟩

/-- CLI arguments with a truthy vmtype, used to instantiate the merge
characterization. -/
def c3wArgs : Args := { baseArgs with vmtype := .str "c2m4" }

/-- The state `mergeStep` produces from `c3File` and `c3wArgs`. -/
def c3wMerged : MState :=
  { c3Merged with app_name := .str "fileapp", vmtype := .str "c2m4" }

/-- Claim C3 witness: the merge characterization instantiated on a
config file and CLI arguments carrying a vmtype. -/
theorem c3_amended_cli_precedence_witness :
    c3wMerged.vmtype
        = (if pyTruthy c3wArgs.vmtype then c3wArgs.vmtype else c3File.vmtype) ∧
      c3wMerged.app_name = c3File.name :=
  ⟨(c3_amended_cli_precedence_except_app_name c3File c3wArgs [] c3wMerged rfl).2.1,
   (c3_amended_cli_precedence_except_app_name c3File c3wArgs [] c3wMerged rfl).2.2.2.2.2.2.2⟩

/-- The oracle for the declined different-project confirmation: `myapp`
exists but belongs to project `p2`, the selected project is `p1`, and every
prompt is answered `n`. -/
def c4World : World :=
  { baseWorld with
    searchApp := fun _ _ => .ok (some ⟨"a1", "myapp", .str "p2"⟩),
    ask := fun _ => "n" }

/-- Claim C4 counterexample: a deploy that finds `myapp` in project `p2`
while `p1` is selected asks `Deploy to app 'myapp' in project 'Team'?`,
and when the user declines it prints `Deployment cancelled.` and exits with
code 0 — not a non-zero exit code. -/
theorem c4_declined_confirmation_exits_zero :
    (deployRun Option.none baseArgs c4World).2 = .error (.exit 0) ∧
      Action.ask "Deploy to app \x27myapp\x27 in project \x27Team\x27?"
        ∈ (deployRun Option.none baseArgs c4World).1 ∧
      Action.info "Deployment cancelled."
        ∈ (deployRun Option.none baseArgs c4World).1 :=
  ⟨rfl, by decide, by decide⟩

/-- Claim C4 (amended): declining the offer to create a missing app prints
an error and exits with code 1; declining the deploy-to-other-project
confirmation, or either nested create-target confirmation, cancels the
deployment with exit code 0. -/
theorem c4_amended_decline_exit_codes (w : World) (st : MState) (ap : AppInfo)
    (pj : ProjInfo) :
    (st.interactive = true → pyTruthy st.projectArg = false →
      pyTruthy st.app_id = false → pyTruthy ap.project_id = true →
      (¬ pyTruthy w.selectedProject ∨ ap.project_id ≠ w.selectedProject) →
      w.getProject (pyToStr ap.project_id) = .ok pj →
      w.ask ("Deploy to app \x27" ++ ap.name ++ "\x27 in project \x27" ++
        pj.name ++ "\x27?") ≠ "y" →
      (confirmStep w st (some ap)).2 = .error (.exit 0)) ∧
    (st.interactive = true →
      w.ask ("No app with " ++ pyToStr (pyOr st.app_name st.app_id) ++
        " found. Do you want to create a new app to deploy?") ≠ "y" →
      (confirmStep w st Option.none).2 = .error (.exit 1)) ∧
    (∀ tr o, confirmNewApp w st = (tr, .error o) → o = .exit 0) := by
  refine ⟨?_, ?_, ?_⟩
  · intro hint hparg happid hpid hdiff hget hask
    have hdiff' : pyTruthy w.selectedProject = false ∨ ¬ ap.project_id = w.selectedProject := by
      rcases hdiff with h | h
      · exact Or.inl (by simpa using h)
      · exact Or.inr h
    simp [confirmStep, hint, hparg, happid, hpid, hget, hask, hdiff']
  · intro hint hask
    simp [confirmStep, createFlow, hint, hask]
  · intro tr o h
    unfold confirmNewApp at h
    split at h
    · simp at h
    · split at h
      · split at h
        · simp only [Prod.mk.injEq, Except.error.injEq] at h
          exact h.2.symm
        · simp at h
      · split at h
        · split at h
          · simp only [Prod.mk.injEq, Except.error.injEq] at h
            exact h.2.symm
          · simp at h
        · simp at h

/-- A merged deploy state: interactive, app name `myapp`, project `p1`
pending, no CLI project argument. -/
def st4 : MState :=
  { app_name := .str "myapp", description := .none, regions := .none,
    vmtype := .none, hostname := .none, envfile := .none,
    project_id := .str "p1", project_name := .none, app_id := .none,
    packages := .none, include_db := .bool false, strategy := .none,
    envs := .list [], interactive := true, projectArg := .none }

/-- Claim C4 witness: declining the create-app offer on the concrete
decline-everything oracle exits with code 1. -/
theorem c4_amended_decline_exit_codes_witness :
    (confirmStep c4World st4 Option.none).2 = .error (.exit 1) :=
  (c4_amended_decline_exit_codes c4World st4 ⟨"a1", "myapp", .str "p2"⟩
    ⟨"p2", "Team"⟩).2.1 rfl (by decide)

/-- Claim C5: if either export phase raises, the export step prints an
error, exits with code 1, and the temporary export directory does not
survive the step — it is removed (`rmTempDir` appears in the trace) when it
still existed at the cleanup check, and it is already gone otherwise. -/
theorem c5_export_failure_cleans_temp_dir (w : World) :
    (∀ e, w.exportBackend = .error e →
      (exportStepFull w).2.1 = .error (.exit 1) ∧
      (exportStepFull w).2.2 = false ∧
      (w.dirExistsB = true → Action.rmTempDir ∈ (exportStepFull w).1)) ∧
    (∀ e, w.exportBackend = .ok () → w.exportFrontend = .error e →
      (exportStepFull w).2.1 = .error (.exit 1) ∧
      (exportStepFull w).2.2 = false ∧
      (w.dirExistsF = true → Action.rmTempDir ∈ (exportStepFull w).1)) := by
  constructor
  · intro e he
    unfold exportStepFull
    rw [he]
    refine ⟨rfl, ?_, ?_⟩
    · cases hb : w.dirExistsB <;> simp
    · intro hb
      simp [hb]
  · intro e hb he
    cases e with
    | importError m =>
        unfold exportStepFull
        rw [hb, he]
        refine ⟨rfl, ?_, ?_⟩
        · cases hf : w.dirExistsF <;> simp
        · intro hf
          simp [hf]
    | exc m =>
        unfold exportStepFull
        rw [hb, he]
        refine ⟨rfl, ?_, ?_⟩
        · cases hf : w.dirExistsF <;> simp
        · intro hf
          simp [hf]

/-- The cooperative oracle with a failing backend export. -/
def c5World : World := { baseWorld with exportBackend := .error (.exc "boom") }

/-- Claim C5 witness: the cleanup property instantiated on a concrete
backend-export failure. -/
theorem c5_export_failure_cleans_temp_dir_witness :
    (exportStepFull c5World).2.1 = .error (.exit 1) ∧
      (exportStepFull c5World).2.2 = false ∧
      Action.rmTempDir ∈ (exportStepFull c5World).1 :=
  ⟨((c5_export_failure_cleans_temp_dir c5World).1 (.exc "boom") rfl).1,
   ((c5_export_failure_cleans_temp_dir c5World).1 (.exc "boom") rfl).2.1,
   ((c5_export_failure_cleans_temp_dir c5World).1 (.exc "boom") rfl).2.2 rfl⟩

/-- CLI arguments giving both an explicit env (`--env A=1`) and an env file
(`--envfile .env`). -/
def c6Args : Args :=
  { baseArgs with envs := .list [.str "A=1"], envfile := .str ".env" }

/-- Claim C6 counterexample: a full deploy given both explicit envs and an
env file completes, and its trace contains no warning at all — the deploy
flow never calls `console.warn` (the `--envfile is set; ignoring --env`
warning lives in the separate secrets-update command, not in `deploy`). -/
theorem c6_no_warning_in_deploy :
    pyTruthy c6Args.envfile = true ∧ pyTruthy c6Args.envs = true ∧
      (deployRun Option.none c6Args baseWorld).2 = .ok () ∧
      ((deployRun Option.none c6Args baseWorld).1.all fun act => !act.isWarn) = true :=
  ⟨rfl, rfl, rfl, by decide⟩

/-- Claim C6 (amended): when an env file is configured (and `python-dotenv`
imports), the env materialization step replaces the secrets derived from
the explicit `envs` list with the parsed env-file values, whatever they
were, and emits nothing — in particular no warning. -/
theorem c6_amended_envfile_replaces_envs (w : World) (st : MState)
    (processed : Option (List (String × String)))
    (h1 : pyTruthy st.envfile = true) (h2 : w.dotenvAvailable = true) :
    envStep w st processed = ([], .ok (some (w.dotenvValues (pyToStr st.envfile)))) := by
  unfold envStep
  simp [h1, h2]

/-- The merged state `st4` with an env file configured. -/
def st6 : MState := { st4 with envfile := .str ".env" }

/-- Claim C6 witness: the env-file replacement instantiated concretely —
the explicit-envs secrets `[("A", "1")]` are discarded in favour of the
parsed env-file values. -/
theorem c6_amended_envfile_replaces_envs_witness :
    envStep baseWorld st6 (some [("A", "1")])
      = ([], .ok (some (baseWorld.dotenvValues (pyToStr st6.envfile)))) :=
  c6_amended_envfile_replaces_envs baseWorld st6 (some [("A", "1")]) rfl rfl

/-- Claim C10: with a config file present whose resolved app name is the
literal `"default"`, the deploy flow exits with code 1 having emitted only
console errors — no project/app resolution, export, or upload action is
attempted. -/
theorem c10_default_app_name_aborts_early (c : Config) (a : Args) (w : World)
    (hname : c.name = PyVal.str "default") :
    (deployRun (some c) a w).2 = .error (.exit 1) ∧
      ∀ act ∈ (deployRun (some c) a w).1, act.isConsoleError = true := by
  have hm : ∃ msg, mergeStep (some c) a = ([Action.error msg], .error (.exit 1)) := by
    simp only [mergeStep]
    by_cases h1 : ¬ pyTruthy a.app_id ∧ ¬ pyIsStrOrNone c.appid
    · rw [if_pos h1]
      exact ⟨_, rfl⟩
    · rw [if_neg h1, hname]
      refine ⟨"Please set real config values in cloud.yml or pyproject.toml", ?_⟩
      simp [pyIsStrOrNone]
  obtain ⟨msg, hm⟩ := hm
  have hrun : deployRun (some c) a w = ([Action.error msg], .error (.exit 1)) := by
    unfold deployRun
    rw [hm]
    rfl
  rw [hrun]
  refine ⟨rfl, ?_⟩
  intro act hact
  simp only [List.mem_singleton] at hact
  rw [hact]
  rfl

/-- A config file whose `name` is the literal `"default"`. -/
def c10File : Config := { Config.defaultFields with name := .str "default" }

/-- Claim C10 witness: the early abort instantiated on the cooperative
oracle — the flow exits 1 without reaching any remote call. -/
theorem c10_default_app_name_aborts_early_witness :
    (deployRun (some c10File) baseArgs baseWorld).2 = .error (.exit 1) :=
  (c10_default_app_name_aborts_early c10File baseArgs baseWorld rfl).1

end RxCli
